import Mathlib

/-!
Verification development for the power-monitor plugin (src/src/power.c).

The C program is a single-threaded, callback-driven monitor.  We embed it
shallowly: the mutable plugin context (`PowerPlugin`) becomes an explicit
state record `PState`; each callback and startup check becomes a pure
function from the state and its external inputs (file contents, probe
output, device events — delivered as explicit arguments) to the new state
together with the list of notifications it emits.  File contents are lists
of byte values (`List Nat`, each < 256 for real files); a file that cannot
be opened is `none`.  Shell-pipeline output is a list of lines (without
their trailing newline); a pipeline that failed to launch is `none`.
-/

/-- Notifications emitted through the panel sink: `wrap_notify` (advisory)
and `wrap_critical` (critical). -/
inductive Note where
  | notify (msg : String)
  | critical (msg : String)
deriving DecidableEq, Repr

/-- `g_ascii_isspace`: space, tab, newline, vertical tab, form feed,
carriage return. -/
def isSpaceC (c : Char) : Bool :=
  c = ' ' || c = '\t' || c = '\n' || c = '\x0b' || c = '\x0c' || c = '\r'

/-- One `fgetc` at offset `k` of an open file, as the `int` the C call
returns: the byte at that offset, or `-1` (EOF) past the end.  Reading past
the end keeps returning EOF, which is what the byte-assembly loop relies
on for short files. -/
def fgetcInt (bs : List Nat) (k : Nat) : Int :=
  match bs.get? k with
  | some b => (b : Int)
  | none => -1

/-- The first `fgetc` of a file, as an `int` (`-1` for an empty file).
Used where the C compares `fgetc (fp) == 0x31` directly. -/
def fgetc1 (bs : List Nat) : Int :=
  match bs with
  | [] => -1
  | b :: _ => (b : Int)

/-- Storing an `int` returned by `fgetc` into an `unsigned char` cell:
truncation mod 256 (so the EOF value `-1` becomes `0xFF`). -/
def storeByte (x : Int) : Nat := (x % 256).toNat

/-- The 4-byte big-endian read shared by `check_psu` and `check_brownout`:
`for (int i = 3; i >= 0; i--) cptr[i] = fgetc (fp);` over the bytes of an
`int`, on the little-endian target, so the first byte read lands in the
most-significant position.  `none` when the `fopen` failed. -/
def read_be_u32 (file : Option (List Nat)) : Option Nat :=
  match file with
  | none => none
  | some bs =>
      some (storeByte (fgetcInt bs 0) * 2 ^ 24 + storeByte (fgetcInt bs 1) * 2 ^ 16 +
            storeByte (fgetcInt bs 2) * 2 ^ 8 + storeByte (fgetcInt bs 3))

/-- The 32-bit value of the C `int` holding the assembled bytes (two's
complement reading, used by the signed comparison in `check_psu`). -/
def toSigned32 (v : Nat) : Int :=
  if v < 2 ^ 31 then (v : Int) else (v : Int) - 2 ^ 32

/-- Maximal run of decimal digits: accumulates onto `acc`, returns the
value and the unconsumed rest. -/
def scanDigitsAux (acc : Nat) : List Char → Nat × List Char
  | [] => (acc, [])
  | c :: cs =>
      if c.isDigit then scanDigitsAux (acc * 10 + (c.toNat - 48)) cs
      else (acc, c :: cs)

/-- At least one digit, then `scanDigitsAux`; `none` if the first
character is not a digit. -/
def scanDigits : List Char → Option (Nat × List Char)
  | [] => none
  | c :: cs =>
      if c.isDigit then some (scanDigitsAux (c.toNat - 48) cs) else none

/-- `sscanf`-style `%d` conversion: skip leading whitespace, optional
sign, at least one digit; yields the value and the unconsumed rest. -/
def scanIntChars : List Char → Option (Int × List Char)
  | [] => none
  | c :: cs =>
      if isSpaceC c then scanIntChars cs
      else if c = '-' then (scanDigits cs).map (fun p => (-(p.1 : Int), p.2))
      else if c = '+' then (scanDigits cs).map (fun p => ((p.1 : Int), p.2))
      else (scanDigits (c :: cs)).map (fun p => ((p.1 : Int), p.2))

/-- `sscanf (s, "%d", &v) == 1` with the parsed value. -/
def sscanf_d (s : String) : Option Int :=
  (scanIntChars s.toList).map Prod.fst

/-- `sscanf (s, "%dx%d", &w, &h) == 2` with the parsed pair: `%d`, the
literal character `x`, then `%d`. -/
def sscanf_dxd (s : String) : Option (Int × Int) :=
  match scanIntChars s.toList with
  | none => none
  | some (w, rest) =>
      match rest with
      | 'x' :: rest2 => (scanIntChars rest2).map (fun p => (w, p.1))
      | _ => none

/-- `get_string`: run a pipeline (its output given as the list of lines
without their terminating newlines, `none` when `popen` failed), take the
first line, overwrite every `g_ascii_isspace` byte with NUL, and
`g_strdup` the result — which copies only up to the first NUL, i.e. the
prefix of the line before its first whitespace character.  Returns `none`
when the pipeline failed to launch or produced no line at all. -/
def get_string (out : Option (List String)) : Option String :=
  match out with
  | none => none
  | some [] => none
  | some (l :: _) => some (String.mk (l.toList.takeWhile (fun c => !(isSpaceC c))))

/-- The mutable fields of `PowerPlugin` that the monitoring logic reads or
writes: the hazard bitmask `show_icon`, the overcurrent dedup counter
`last_oc`, the three event-source ids, and presence of the three udev
handles (non-NULL pointers).  UI widget fields are external sinks and are
not part of the state. -/
structure PState where
  show_icon : Nat
  last_oc : Int
  overcurrent_id : Nat
  lowvoltage_id : Nat
  startup_id : Nat
  udev_mon_oc : Bool
  udev_mon_lv : Bool
  udev : Bool
deriving DecidableEq, Repr

/-- ICON_LOW_VOLTAGE -/
def ICON_LOW_VOLTAGE : Nat := 1
/-- ICON_OVER_CURRENT -/
def ICON_OVER_CURRENT : Nat := 2
/-- ICON_BROWNOUT -/
def ICON_BROWNOUT : Nat := 4

/-- The external world as the startup checks observe it: the exit status
of the cm5 hardware probe, the device-tree pseudo-files, the warnings
file, and the outputs of the three shell pipelines (as line lists, `none`
for a `popen` failure). -/
structure Env where
  is_cmfive : Bool
  max_current_file : Option (List Nat)
  power_reset_file : Option (List Nat)
  warn_file_exists : Bool
  warn_file : Option (List String)
  total_mem_out : Option (List String)
  hdmi1_out : Option (List String)
  hdmi2_out : Option (List String)
deriving Repr

def psuMsg : String :=
  "This power supply is not capable of supplying 5A\nPower to peripherals will be restricted"

def brownoutMsg : String :=
  "Reset due to low power event\nPlease check your power supply"

def memMsg : String :=
  "High display resolution is using large amounts of memory.\nConsider reducing screen resolution."

def ocMsg : String :=
  "USB overcurrent\nPlease check your connected USB devices"

def lvMsg : String :=
  "Low voltage warning\nPlease check your power supply"

/-- `check_psu`: skip on cm5 hardware; otherwise read the big-endian
32-bit `max_current` and notify when the signed value is below 5000.
Touches no plugin state. -/
def check_psu (env : Env) : List Note :=
  if env.is_cmfive then []
  else
    match read_be_u32 env.max_current_file with
    | none => []
    | some v => if toSigned32 v < 5000 then [Note.notify psuMsg] else []

/-- `check_brownout`: read the big-endian 32-bit `power_reset` bitmask;
when bit 0x02 is set, emit a critical notification and set the Brownout
flag (the icon update itself is a pure function of the mask, below). -/
def check_brownout (env : Env) (pt : PState) : PState × List Note :=
  match read_be_u32 env.power_reset_file with
  | none => (pt, [])
  | some v =>
      if v &&& 2 ≠ 0 then
        ({ pt with show_icon := pt.show_icon ||| ICON_BROWNOUT }, [Note.critical brownoutMsg])
      else (pt, [])

/-- `g_strstrip`: drop `g_ascii_isspace` characters from both ends. -/
def strstripC (s : String) : String :=
  String.mk (((s.toList.dropWhile isSpaceC).reverse.dropWhile isSpaceC).reverse)

/-- `check_user_warnings`: if the warnings file exists and opens, emit one
advisory per line, stripped.  Touches no plugin state. -/
def check_user_warnings (env : Env) : List Note :=
  if env.warn_file_exists then
    match env.warn_file with
    | none => []
    | some lines => lines.map (fun l => Note.notify (strstripC l))
  else []

/-- One display-resolution probe of `check_memres`: if the probe returned
a line and it parses as `WIDTHxHEIGHT`, raise the running maximum height,
else leave it. -/
def memres_height (out : Option (List String)) (max_h : Int) : Int :=
  match get_string out with
  | none => max_h
  | some res =>
      match sscanf_dxd res with
      | some wh => if wh.2 > max_h then wh.2 else max_h
      | none => max_h

/-- `check_memres`: probe total memory; bail out (no finding) on probe or
parse failure or memory outside [256, 2048]; then take the maximum parsed
height over the two display probes and advise when it exceeds 1200.
Touches no plugin state. -/
def check_memres (env : Env) : List Note :=
  match get_string env.total_mem_out with
  | none => []
  | some res =>
      match sscanf_d res with
      | none => []
      | some mem =>
          if mem < 256 ∨ mem > 2048 then []
          else if memres_height env.hdmi2_out (memres_height env.hdmi1_out 0) > 1200 then
            [Note.notify memMsg]
          else []

/-- `startup_checks`: the one-shot idle task — run the four checks in
order, then clear `startup_id`. -/
def startup_checks (env : Env) (pt : PState) : PState × List Note :=
  let n1 := check_psu env
  let r2 := check_brownout env pt
  let n3 := check_memres env
  let n4 := check_user_warnings env
  ({ r2.1 with startup_id := 0 }, n1 ++ r2.2 ++ n3 ++ n4)

/-- A USB device event as `cb_overcurrent_fd` consumes it: the action
string (`none` for a NULL from `udev_device_get_action`), the content of
`/sys/<OVER_CURRENT_PORT>/disable` (`none` when that `fopen` fails), and
the `OVER_CURRENT_COUNT` property string. -/
structure OCEvent where
  action : Option String
  oc_port_disable : Option (List Nat)
  oc_count : Option String
deriving Repr

/-- `cb_overcurrent_fd`: on a received device (`none` means
`udev_monitor_receive_device` returned NULL), when the action is "change",
the first byte of the port's disable file is ASCII '1' (0x31), the
`OVER_CURRENT_COUNT` property parses as an integer, and that integer
differs from `last_oc`: emit a critical notification, set the OverCurrent
flag and store the counter.  Otherwise no state change and no output. -/
def cb_overcurrent_fd (pt : PState) (dev : Option OCEvent) : PState × List Note :=
  match dev with
  | none => (pt, [])
  | some ev =>
      if ev.action = some "change" then
        match ev.oc_port_disable with
        | none => (pt, [])
        | some content =>
            if fgetc1 content = 0x31 then
              match (match ev.oc_count with
                     | none => none
                     | some s => sscanf_d s) with
              | some v =>
                  if v ≠ pt.last_oc then
                    ({ pt with show_icon := pt.show_icon ||| ICON_OVER_CURRENT, last_oc := v },
                     [Note.critical ocMsg])
                  else (pt, [])
              | none => (pt, [])
            else (pt, [])
      else (pt, [])

/-- A hwmon device event as `cb_lowvoltage_fd` consumes it: action,
sysname, and the content of `<syspath>/in0_lcrit_alarm` (`none` when the
`fopen` fails). -/
structure LVEvent where
  action : Option String
  sysname : String
  alarm_file : Option (List Nat)
deriving Repr

/-- `cb_lowvoltage_fd`: on a received device whose action is "change" and
whose sysname begins with "hwmon" (`strncmp` over 5 characters), read the
first byte of its `in0_lcrit_alarm`; if it is ASCII '1', emit a critical
notification and set the LowVoltage flag.  Otherwise no state change and
no output. -/
def cb_lowvoltage_fd (pt : PState) (dev : Option LVEvent) : PState × List Note :=
  match dev with
  | none => (pt, [])
  | some ev =>
      if ev.action = some "change" ∧ ev.sysname.toList.take 5 = "hwmon".toList then
        match ev.alarm_file with
        | none => (pt, [])
        | some content =>
            if fgetc1 content = 0x31 then
              ({ pt with show_icon := pt.show_icon ||| ICON_LOW_VOLTAGE }, [Note.critical lvMsg])
            else (pt, [])
      else (pt, [])

/-- The observable output of `update_icon`: sensitivity, visibility, and
the tooltip text set on the tray icon (`none` when none is set). -/
structure IconState where
  sensitive : Bool
  visible : Bool
  tooltip : Option String
deriving DecidableEq, Repr

def lvLine : String := "PSU low voltage detected\n"
def ocLine : String := "USB over current detected\n"
def boLine : String := "Low power reset has occurred\n"

/-- The `g_strconcat` argument of `update_icon`: one canned line (with its
trailing newline) per set bit of the mask, empty string otherwise. -/
def tooltip_cat (m : Nat) : String :=
  (if m &&& ICON_LOW_VOLTAGE ≠ 0 then lvLine else "") ++
  (if m &&& ICON_OVER_CURRENT ≠ 0 then ocLine else "") ++
  (if m &&& ICON_BROWNOUT ≠ 0 then boLine else "")

/-- `update_icon` as a function of the hazard mask: sensitive and visible
exactly when the mask is non-zero; when visible, the tooltip is the
concatenation with its last character overwritten by NUL
(`tooltip[strlen (tooltip) - 1] = 0`, i.e. `dropRight 1` for a non-empty
concatenation; reachable masks make it non-empty, see the truncation
safety theorem). -/
def update_icon (m : Nat) : IconState :=
  if m = 0 then { sensitive := false, visible := false, tooltip := none }
  else
    { sensitive := true, visible := true,
      tooltip := some ((tooltip_cat m).dropRight 1) }

/-- The outcome of the handle-creating calls in `power_init`: whether
`is_pi ()` held, the source id `g_unix_fd_add` returned for each udev
monitor that `udev_monitor_new_from_netlink` managed to create (`none`
when creation failed, so no watch was added), and the id of the scheduled
idle task. -/
structure InitEnv where
  is_pi : Bool
  mon_oc : Option Nat
  mon_lv : Option Nat
  idle_id : Nat
deriving Repr

/-- `power_init`: zero the mask and the handles; on Pi hardware, set the
dedup sentinel `last_oc = -1`, create the udev handle and the two
monitors, and schedule the startup task.  Off Pi hardware everything stays
quiescent (`last_oc` keeps the zero from `g_new0`). -/
def power_init (e : InitEnv) : PState :=
  let base : PState :=
    { show_icon := 0, last_oc := 0, overcurrent_id := 0, lowvoltage_id := 0,
      startup_id := 0, udev_mon_oc := false, udev_mon_lv := false, udev := false }
  if e.is_pi then
    { base with
      last_oc := -1,
      udev := true,
      udev_mon_oc := e.mon_oc.isSome,
      overcurrent_id := match e.mon_oc with | some id => id | none => 0,
      udev_mon_lv := e.mon_lv.isSome,
      lowvoltage_id := match e.mon_lv with | some id => id | none => 0,
      startup_id := e.idle_id }
  else base

/-- A resource release performed by `power_destructor`: removing an event
source from the main loop, dropping a udev reference, or freeing the
context record itself (the unconditional `g_free (pt)` that ends the C
destructor). -/
inductive Release where
  | source_remove (id : Nat)
  | unref_mon_oc
  | unref_mon_lv
  | unref_udev
  | free_context
deriving DecidableEq, Repr

/-- `power_destructor`: remove each event source whose id is positive and
zero the id; unref each udev handle that is present and NULL it; finally,
unconditionally `g_free` the context record.  Returns the state after the
call together with the releases performed, in program order. -/
def power_destructor (pt : PState) : PState × List Release :=
  let r1 : List Release :=
    if pt.overcurrent_id > 0 then [Release.source_remove pt.overcurrent_id] else []
  let r2 : List Release :=
    if pt.lowvoltage_id > 0 then [Release.source_remove pt.lowvoltage_id] else []
  let r3 : List Release :=
    if pt.startup_id > 0 then [Release.source_remove pt.startup_id] else []
  let r4 : List Release := if pt.udev_mon_oc then [Release.unref_mon_oc] else []
  let r5 : List Release := if pt.udev_mon_lv then [Release.unref_mon_lv] else []
  let r6 : List Release := if pt.udev then [Release.unref_udev] else []
  ({ pt with overcurrent_id := 0, lowvoltage_id := 0, startup_id := 0,
             udev_mon_oc := false, udev_mon_lv := false, udev := false },
   r1 ++ r2 ++ r3 ++ r4 ++ r5 ++ r6 ++ [Release.free_context])

/-! ### Specification-side definitions and concrete fixtures -/

/-- The hazard mask corresponding to a set of the three named flags. -/
def mask_of (lv oc bo : Bool) : Nat :=
  (if lv then ICON_LOW_VOLTAGE else 0) ||| (if oc then ICON_OVER_CURRENT else 0) |||
  (if bo then ICON_BROWNOUT else 0)

/-- The tooltip as the specification describes it: one canned line per set
flag in the fixed order LowVoltage, OverCurrent, Brownout, each followed
by a line break, with the final trailing line break dropped. -/
def spec_tooltip (lv oc bo : Bool) : String :=
  (((if lv then ["PSU low voltage detected"] else []) ++
    (if oc then ["USB over current detected"] else []) ++
    (if bo then ["Low power reset has occurred"] else [])).foldr
      (fun l acc => l ++ "\n" ++ acc) "").dropRight 1

/-- Modelled from the spec: the probe postprocessing the specification
claims — "strips all whitespace from" the first line, i.e. removes every
whitespace character while keeping the rest.  Compared against the
source's `get_string`, which instead truncates at the first whitespace. -/
def strip_all_ws (s : String) : String :=
  String.mk (s.toList.filter (fun c => !(isSpaceC c)))

/-- A successful on-Pi initialization outcome. -/
def initEnvPi : InitEnv := { is_pi := true, mon_oc := some 5, mon_lv := some 6, idle_id := 7 }

/-- An off-Pi initialization outcome: no handles created. -/
def initEnvNonPi : InitEnv := { is_pi := false, mon_oc := none, mon_lv := none, idle_id := 0 }

/-- The plugin state right after `power_init` on Pi hardware. -/
def pt0 : PState := power_init initEnvPi

/-- A startup environment whose only readable input is the memory and
first-display probes. -/
def memEnv (mem hd : String) : Env :=
  { is_cmfive := true, max_current_file := none, power_reset_file := none,
    warn_file_exists := false, warn_file := none,
    total_mem_out := some [mem], hdmi1_out := some [hd], hdmi2_out := none }

/-- A startup environment with only a `power_reset` pseudo-file. -/
def brownoutEnv (bs : List Nat) : Env :=
  { is_cmfive := true, max_current_file := none, power_reset_file := some bs,
    warn_file_exists := false, warn_file := none,
    total_mem_out := none, hdmi1_out := none, hdmi2_out := none }

/-- An overcurrent event: action "change", disable file reading '1',
counter property string `s`. -/
def ocEvent (s : String) : OCEvent :=
  { action := some "change", oc_port_disable := some [49], oc_count := some s }

/-- A low-voltage event for sysname `n` with alarm-file content `c`. -/
def lvEvent (n : String) (a : Option String) (c : Option (List Nat)) : LVEvent :=
  { action := a, sysname := n, alarm_file := c }

/-! ### Helper lemmas -/

/-- A byte below 256 passes through the `unsigned char` store unchanged. -/
theorem storeByte_of_lt (b : Nat) (h : b < 256) : storeByte (b : Int) = b := by
  unfold storeByte
  rw [Int.emod_eq_of_lt (by positivity) (by exact_mod_cast h)]
  simp

/-- The EOF value stores as 0xFF. -/
theorem storeByte_eof : storeByte (-1) = 255 := by decide

/-- Bits survive or-ing more bits in. -/
theorem testBit_or_left (a b i : Nat) (h : a.testBit i = true) :
    (a ||| b).testBit i = true := by
  simp [Nat.testBit_or, h]

/-! ### Claims -/

/-- C6: the 32-bit pseudo-file read assembles the first four bytes
most-significant-first: `(b0<<24)|(b1<<16)|(b2<<8)|b3`; an unopenable file
yields no value; a short read feeds the EOF sentinel (stored as 0xFF) into
the remaining, lower byte positions. -/
theorem c6_read_be_u32 :
    (∀ b0 b1 b2 b3 : Nat, ∀ rest : List Nat,
        b0 < 256 → b1 < 256 → b2 < 256 → b3 < 256 →
        read_be_u32 (some (b0 :: b1 :: b2 :: b3 :: rest)) =
          some (b0 * 2 ^ 24 + b1 * 2 ^ 16 + b2 * 2 ^ 8 + b3))
    ∧ read_be_u32 none = none
    ∧ (∀ b0 b1 : Nat, b0 < 256 → b1 < 256 →
        read_be_u32 (some [b0, b1]) =
          some (b0 * 2 ^ 24 + b1 * 2 ^ 16 + 255 * 2 ^ 8 + 255)) := by
  refine ⟨?_, rfl, ?_⟩
  · intro b0 b1 b2 b3 rest h0 h1 h2 h3
    simp only [read_be_u32, fgetcInt, List.get?]
    rw [storeByte_of_lt b0 h0, storeByte_of_lt b1 h1, storeByte_of_lt b2 h2,
        storeByte_of_lt b3 h3]
  · intro b0 b1 h0 h1
    simp only [read_be_u32, fgetcInt, List.get?]
    rw [storeByte_of_lt b0 h0, storeByte_of_lt b1 h1, storeByte_eof]

/-- C6 witness: concrete instances of the three read shapes. -/
theorem c6_read_be_u32_witness :
    read_be_u32 (some [0, 0, 19, 136]) = some 5000
    ∧ read_be_u32 none = none
    ∧ read_be_u32 (some [1, 2]) = some 16973823 := by
  refine ⟨?_, c6_read_be_u32.2.1, ?_⟩
  · have h := c6_read_be_u32.1 0 0 19 136 [] (by decide) (by decide) (by decide) (by decide)
    rw [h]; norm_num
  · have h := c6_read_be_u32.2.2 1 2 (by decide) (by decide)
    rw [h]; norm_num

/-- C4: the icon is visible exactly when the hazard-flag set is non-empty;
when visible the tooltip is the specification's composition (one canned
line per set flag, fixed order LowVoltage, OverCurrent, Brownout, line
breaks between, no trailing break); when empty, hidden and no tooltip; in
particular {LowVoltage, OverCurrent} gives the two lines joined by one
line break. -/
theorem c4_update_icon :
    ∀ lv oc bo : Bool,
      (update_icon (mask_of lv oc bo)).visible = (lv || oc || bo)
      ∧ (update_icon (mask_of lv oc bo)).tooltip =
          (if lv || oc || bo then some (spec_tooltip lv oc bo) else none)
      ∧ (update_icon (mask_of true true false)).tooltip =
          some "PSU low voltage detected\nUSB over current detected" := by
  decide

/-- C10: whenever at least one hazard flag is set, the concatenated
tooltip string is non-empty and ends in a line break — removing its last
character is in bounds and removes exactly that final line break; the
else-branch with its truncation runs exactly when the mask is non-zero,
which for hazard-flag masks means a non-empty flag set. -/
theorem c10_tooltip_truncation_safe :
    ∀ lv oc bo : Bool,
      (mask_of lv oc bo = 0 ↔ (lv || oc || bo) = false)
      ∧ ((lv || oc || bo) = true →
          tooltip_cat (mask_of lv oc bo) ≠ ""
          ∧ 1 ≤ (tooltip_cat (mask_of lv oc bo)).length
          ∧ tooltip_cat (mask_of lv oc bo) =
              (tooltip_cat (mask_of lv oc bo)).dropRight 1 ++ "\n") := by
  decide

/-- C10 witness: the single-flag LowVoltage instance. -/
theorem c10_tooltip_truncation_safe_witness :
    tooltip_cat (mask_of true false false) ≠ ""
    ∧ 1 ≤ (tooltip_cat (mask_of true false false)).length
    ∧ tooltip_cat (mask_of true false false) =
        (tooltip_cat (mask_of true false false)).dropRight 1 ++ "\n" :=
  (c10_tooltip_truncation_safe true false false).2 rfl

/-- C2: the low-voltage callback emits one critical notification and sets
the LowVoltage flag if and only if the event's action is "change", its
sysname begins with "hwmon", and the first byte of its alarm file is
ASCII '1'; in every other case (wrong action, wrong sysname, unopenable
alarm file, or any other first byte) the state is unchanged and nothing is
emitted. -/
theorem c2_lowvoltage (pt : PState) (ev : LVEvent) :
    ((ev.action = some "change" ∧ ev.sysname.toList.take 5 = "hwmon".toList ∧
        (∃ c, ev.alarm_file = some c ∧ fgetc1 c = 49)) →
      cb_lowvoltage_fd pt (some ev) =
        ({ pt with show_icon := pt.show_icon ||| ICON_LOW_VOLTAGE }, [Note.critical lvMsg]))
    ∧ (¬ (ev.action = some "change" ∧ ev.sysname.toList.take 5 = "hwmon".toList ∧
          (∃ c, ev.alarm_file = some c ∧ fgetc1 c = 49)) →
      cb_lowvoltage_fd pt (some ev) = (pt, [])) := by
  constructor
  · rintro ⟨ha, hs, c, hc, hb⟩
    simp only [String.toList] at hs
    simp [cb_lowvoltage_fd, ha, hs, hc, hb]
  · intro hne
    by_cases ha : ev.action = some "change"
    · by_cases hs : ev.sysname.toList.take 5 = "hwmon".toList
      · cases hc : ev.alarm_file with
        | none =>
            simp only [String.toList] at hs
            simp [cb_lowvoltage_fd, ha, hs, hc]
        | some c =>
            by_cases hb : fgetc1 c = 49
            · exact absurd ⟨ha, hs, c, hc, hb⟩ hne
            · simp only [String.toList] at hs
              simp [cb_lowvoltage_fd, ha, hs, hc, hb]
      · simp only [String.toList] at hs
        simp [cb_lowvoltage_fd, hs]
    · simp [cb_lowvoltage_fd, ha]

/-- C2 witness: a `hwmon3` "change" event with alarm byte '1' fires and
sets the flag; the same event with alarm byte '0' does nothing. -/
theorem c2_lowvoltage_witness :
    cb_lowvoltage_fd pt0 (some (lvEvent "hwmon3" (some "change") (some [49]))) =
      ({ pt0 with show_icon := pt0.show_icon ||| ICON_LOW_VOLTAGE }, [Note.critical lvMsg])
    ∧ cb_lowvoltage_fd pt0 (some (lvEvent "hwmon3" (some "change") (some [48]))) =
      (pt0, []) := by
  constructor
  · exact (c2_lowvoltage pt0 (lvEvent "hwmon3" (some "change") (some [49]))).1
      ⟨rfl, by decide, [49], rfl, by decide⟩
  · exact (c2_lowvoltage pt0 (lvEvent "hwmon3" (some "change") (some [48]))).2
      (by rintro ⟨-, -, c, hc, hb⟩; cases hc; exact absurd hb (by decide))

/-- C1 counterexample: the very first "change" event whose disable byte is
'1' and whose `OVER_CURRENT_COUNT` parses as an integer does NOT always
fire — the counter "-1" parses (sscanf yields -1) yet collides with the
initial sentinel `last_oc = -1`, so the freshly initialized state emits
nothing and is unchanged. -/
theorem c1_overcurrent_counterexample :
    (ocEvent "-1").action = some "change"
    ∧ (ocEvent "-1").oc_port_disable = some [49] ∧ fgetc1 [49] = 49
    ∧ sscanf_d "-1" = some (-1)
    ∧ pt0.last_oc = -1
    ∧ cb_overcurrent_fd pt0 (some (ocEvent "-1")) = (pt0, []) := by
  refine ⟨rfl, rfl, rfl, by decide, rfl, by decide⟩

/-- C1 (amended): for a "change" event with disable byte '1' and a counter
that parses as `v`, the callback emits one critical notification, sets the
OverCurrent flag and stores `v` exactly when `v` differs from the stored
counter, and otherwise emits nothing and changes no state; the stored
counter starts at the sentinel -1 after on-Pi initialization, so the very
first such event fires whenever its parsed counter is not -1 (as every
real, non-negative kernel counter is). -/
theorem c1_overcurrent_dedup (pt : PState) (ev : OCEvent) (v : Int) (s : String)
    (ha : ev.action = some "change")
    (hd : ∃ c, ev.oc_port_disable = some c ∧ fgetc1 c = 49)
    (hs : ev.oc_count = some s) (hv : sscanf_d s = some v) :
    (v ≠ pt.last_oc →
      cb_overcurrent_fd pt (some ev) =
        ({ pt with show_icon := pt.show_icon ||| ICON_OVER_CURRENT, last_oc := v },
         [Note.critical ocMsg]))
    ∧ (v = pt.last_oc → cb_overcurrent_fd pt (some ev) = (pt, []))
    ∧ (∀ e : InitEnv, e.is_pi = true → (power_init e).last_oc = -1)
    ∧ (∀ e : InitEnv, e.is_pi = true → v ≠ -1 →
        (cb_overcurrent_fd (power_init e) (some ev)).2 = [Note.critical ocMsg]) := by
  obtain ⟨c, hc, hb⟩ := hd
  have hlast : ∀ e : InitEnv, e.is_pi = true → (power_init e).last_oc = -1 := by
    intro e he
    simp [power_init, he]
  refine ⟨?_, ?_, hlast, ?_⟩
  · intro hne
    simp [cb_overcurrent_fd, ha, hc, hb, hs, hv, hne]
  · intro heq
    simp [cb_overcurrent_fd, ha, hc, hb, hs, hv, heq]
  · intro e he hv1
    have h1 : v ≠ (power_init e).last_oc := by rw [hlast e he]; exact hv1
    simp [cb_overcurrent_fd, ha, hc, hb, hs, hv, h1]

/-- C1 witness: on the fresh state, counter 7 fires and stores 7; a repeat
of 7 is silent and changes nothing; counter 8 then fires again. -/
theorem c1_overcurrent_dedup_witness :
    cb_overcurrent_fd pt0 (some (ocEvent "7")) =
      ({ pt0 with show_icon := pt0.show_icon ||| ICON_OVER_CURRENT, last_oc := 7 },
       [Note.critical ocMsg])
    ∧ cb_overcurrent_fd { pt0 with show_icon := 2, last_oc := 7 } (some (ocEvent "7")) =
      ({ pt0 with show_icon := 2, last_oc := 7 }, [])
    ∧ (cb_overcurrent_fd { pt0 with show_icon := 2, last_oc := 7 } (some (ocEvent "8"))).2 =
      [Note.critical ocMsg] := by
  refine ⟨?_, ?_, ?_⟩
  · exact (c1_overcurrent_dedup pt0 (ocEvent "7") 7 "7" rfl ⟨[49], rfl, rfl⟩ rfl
      (by decide)).1 (by decide)
  · exact (c1_overcurrent_dedup { pt0 with show_icon := 2, last_oc := 7 } (ocEvent "7") 7 "7"
      rfl ⟨[49], rfl, rfl⟩ rfl (by decide)).2.1 (by decide)
  · have h := (c1_overcurrent_dedup { pt0 with show_icon := 2, last_oc := 7 } (ocEvent "8") 8 "8"
      rfl ⟨[49], rfl, rfl⟩ rfl (by decide)).1 (by decide)
    rw [h]

/-- The overcurrent callback only ever ors bits into the mask. -/
theorem cb_overcurrent_fd_show_icon (pt : PState) (d : Option OCEvent) :
    (cb_overcurrent_fd pt d).1.show_icon = pt.show_icon ∨
    (cb_overcurrent_fd pt d).1.show_icon = pt.show_icon ||| ICON_OVER_CURRENT := by
  rcases d with _ | ev
  · exact Or.inl rfl
  · simp only [cb_overcurrent_fd]
    split
    · split
      · exact Or.inl rfl
      · split
        · split
          · split
            · exact Or.inr rfl
            · exact Or.inl rfl
          · exact Or.inl rfl
        · exact Or.inl rfl
    · exact Or.inl rfl

/-- The low-voltage callback only ever ors bits into the mask. -/
theorem cb_lowvoltage_fd_show_icon (pt : PState) (d : Option LVEvent) :
    (cb_lowvoltage_fd pt d).1.show_icon = pt.show_icon ∨
    (cb_lowvoltage_fd pt d).1.show_icon = pt.show_icon ||| ICON_LOW_VOLTAGE := by
  rcases d with _ | ev
  · exact Or.inl rfl
  · simp only [cb_lowvoltage_fd]
    split
    · split
      · exact Or.inl rfl
      · split
        · exact Or.inr rfl
        · exact Or.inl rfl
    · exact Or.inl rfl

/-- The startup battery only ever ors bits into the mask (only the
brown-out check touches it). -/
theorem startup_checks_show_icon (env : Env) (pt : PState) :
    (startup_checks env pt).1.show_icon = pt.show_icon ∨
    (startup_checks env pt).1.show_icon = pt.show_icon ||| ICON_BROWNOUT := by
  simp only [startup_checks, check_brownout]
  split
  · exact Or.inl rfl
  · split
    · exact Or.inr rfl
    · exact Or.inl rfl

/-- C3: every post-initialization operation — either device-event
callback on any event, and the whole startup battery — leaves the set of
hazard flags a superset of what it was: no bit of `show_icon` set before
the operation is clear after it. -/
theorem c3_sticky_flags (pt : PState) (env : Env) (d1 : Option OCEvent)
    (d2 : Option LVEvent) (i : Nat) :
    (pt.show_icon.testBit i = true → (cb_overcurrent_fd pt d1).1.show_icon.testBit i = true)
    ∧ (pt.show_icon.testBit i = true → (cb_lowvoltage_fd pt d2).1.show_icon.testBit i = true)
    ∧ (pt.show_icon.testBit i = true → (startup_checks env pt).1.show_icon.testBit i = true) := by
  refine ⟨?_, ?_, ?_⟩ <;> intro h
  · rcases cb_overcurrent_fd_show_icon pt d1 with he | he <;> rw [he]
    · exact h
    · exact testBit_or_left _ _ _ h
  · rcases cb_lowvoltage_fd_show_icon pt d2 with he | he <;> rw [he]
    · exact h
    · exact testBit_or_left _ _ _ h
  · rcases startup_checks_show_icon env pt with he | he <;> rw [he]
    · exact h
    · exact testBit_or_left _ _ _ h

/-- C3 witness: a state with the Brownout bit set keeps it across an
overcurrent event, a low-voltage event, and the startup battery. -/
theorem c3_sticky_flags_witness :
    ((cb_overcurrent_fd { pt0 with show_icon := 4 } (some (ocEvent "7"))).1.show_icon.testBit 2
      = true)
    ∧ ((cb_lowvoltage_fd { pt0 with show_icon := 4 }
          (some (lvEvent "hwmon3" (some "change") (some [49])))).1.show_icon.testBit 2 = true)
    ∧ ((startup_checks (brownoutEnv [0, 0, 0, 0]) { pt0 with show_icon := 4 }).1.show_icon.testBit 2
      = true) := by
  have h := c3_sticky_flags { pt0 with show_icon := 4 } (brownoutEnv [0, 0, 0, 0])
    (some (ocEvent "7")) (some (lvEvent "hwmon3" (some "change") (some [49]))) 2
  exact ⟨h.1 (by decide), h.2.1 (by decide), h.2.2 (by decide)⟩

/-- C5 counterexample: `power_destructor` ends with an unconditional
`g_free (pt)`, so a second call immediately after a first one does release
a resource a second time — it frees the context record again.  On the
fully initialized state, the second call's release list is exactly that
repeated context free, and in particular is not empty. -/
theorem c5_destructor_counterexample :
    Release.free_context ∈ (power_destructor pt0).2
    ∧ (power_destructor (power_destructor pt0).1).2 = [Release.free_context]
    ∧ (power_destructor (power_destructor pt0).1).2 ≠ [] := by
  refine ⟨by decide, by decide, by decide⟩

/-- C5 (amended): the first call zeroes every source id and NULLs every
udev handle, so a second call immediately after performs none of the
handle releases again — the only release it repeats is the unconditional
`g_free` of the context record, which runs on every call (a double free in
C).  A single call only ever releases handles that actually exist: every
removed source id is positive and is one of the three stored ids, and each
udev unref happens only when the corresponding handle is present (so a
state whose handles were never created, or whose startup task completed
and zeroed `startup_id`, triggers no handle release for them); the context
free is performed regardless. -/
theorem c5_destructor_second_call (pt : PState) :
    power_destructor (power_destructor pt).1 =
      ((power_destructor pt).1, [Release.free_context])
    ∧ (∀ id, Release.source_remove id ∈ (power_destructor pt).2 →
        0 < id ∧ (id = pt.overcurrent_id ∨ id = pt.lowvoltage_id ∨ id = pt.startup_id))
    ∧ (Release.unref_mon_oc ∈ (power_destructor pt).2 → pt.udev_mon_oc = true)
    ∧ (Release.unref_mon_lv ∈ (power_destructor pt).2 → pt.udev_mon_lv = true)
    ∧ (Release.unref_udev ∈ (power_destructor pt).2 → pt.udev = true)
    ∧ Release.free_context ∈ (power_destructor pt).2 := by
  refine ⟨rfl, ?_, ?_, ?_, ?_, ?_⟩
  · intro id hmem
    simp only [power_destructor, List.mem_append] at hmem
    rcases hmem with (((((h | h) | h) | h) | h) | h) | h <;>
      first
        | (split at h <;> simp_all)
        | simp_all
  · intro hmem
    simp only [power_destructor, List.mem_append] at hmem
    rcases hmem with (((((h | h) | h) | h) | h) | h) | h <;>
      first
        | (split at h <;> simp_all)
        | simp_all
  · intro hmem
    simp only [power_destructor, List.mem_append] at hmem
    rcases hmem with (((((h | h) | h) | h) | h) | h) | h <;>
      first
        | (split at h <;> simp_all)
        | simp_all
  · intro hmem
    simp only [power_destructor, List.mem_append] at hmem
    rcases hmem with (((((h | h) | h) | h) | h) | h) | h <;>
      first
        | (split at h <;> simp_all)
        | simp_all
  · simp [power_destructor]

/-- C5 witness: for the fully initialized state, the second call after the
first repeats only the context free; and the never-initialized state
performs no handle release on its first call either — only the context
free. -/
theorem c5_destructor_second_call_witness :
    power_destructor (power_destructor pt0).1 =
      ((power_destructor pt0).1, [Release.free_context])
    ∧ (power_destructor (power_init initEnvNonPi)).2 = [Release.free_context] := by
  constructor
  · exact (c5_destructor_second_call pt0).1
  · decide

/-- C7: with `power_reset` readable and bit 0x02 set, the brown-out check
emits exactly one critical notification and sets the Brownout flag; with
the bit clear or the file absent it emits nothing and changes nothing; and
the whole startup battery changes the hazard mask exactly as the brown-out
check alone does — no other startup check mutates hazard state. -/
theorem c7_brownout (env : Env) (pt : PState) :
    (∀ v, read_be_u32 env.power_reset_file = some v → v &&& 2 ≠ 0 →
      check_brownout env pt =
        ({ pt with show_icon := pt.show_icon ||| ICON_BROWNOUT }, [Note.critical brownoutMsg]))
    ∧ (∀ v, read_be_u32 env.power_reset_file = some v → v &&& 2 = 0 →
        check_brownout env pt = (pt, []))
    ∧ (read_be_u32 env.power_reset_file = none → check_brownout env pt = (pt, []))
    ∧ (startup_checks env pt).1.show_icon = (check_brownout env pt).1.show_icon := by
  refine ⟨?_, ?_, ?_, ?_⟩
  · intro v hv hbit
    simp [check_brownout, hv, hbit]
  · intro v hv hbit
    simp [check_brownout, hv, hbit]
  · intro hv
    simp [check_brownout, hv]
  · simp only [startup_checks]

/-- C7 witness: `power_reset = 0x02` gives one critical and the flag;
`0x00` gives neither. -/
theorem c7_brownout_witness :
    check_brownout (brownoutEnv [0, 0, 0, 2]) pt0 =
      ({ pt0 with show_icon := pt0.show_icon ||| ICON_BROWNOUT }, [Note.critical brownoutMsg])
    ∧ check_brownout (brownoutEnv [0, 0, 0, 0]) pt0 = (pt0, []) := by
  constructor
  · exact (c7_brownout (brownoutEnv [0, 0, 0, 2]) pt0).1 2 (by decide) (by decide)
  · exact (c7_brownout (brownoutEnv [0, 0, 0, 0]) pt0).2.1 0 (by decide) (by decide)

/-- C8: given a memory probe that parses to `mem`, the memory/resolution
check emits exactly one advisory precisely when `256 ≤ mem ≤ 2048` and the
maximum parsed display height exceeds 1200; a failed or unparseable memory
probe yields no finding; and the four boundary instances from the
specification hold: (2048, 1201) advises, (2048, 1200), 2049 and 255 do
not. -/
theorem c8_memres (env : Env) :
    (∀ s mem, get_string env.total_mem_out = some s → sscanf_d s = some mem →
      check_memres env =
        if 256 ≤ mem ∧ mem ≤ 2048 ∧
            1200 < memres_height env.hdmi2_out (memres_height env.hdmi1_out 0)
        then [Note.notify memMsg] else [])
    ∧ (get_string env.total_mem_out = none → check_memres env = [])
    ∧ (∀ s, get_string env.total_mem_out = some s → sscanf_d s = none → check_memres env = [])
    ∧ check_memres (memEnv "2048" "1920x1201") = [Note.notify memMsg]
    ∧ check_memres (memEnv "2048" "1920x1200") = []
    ∧ check_memres (memEnv "2049" "1920x9999") = []
    ∧ check_memres (memEnv "255" "1920x9999") = [] := by
  refine ⟨?_, ?_, ?_, by decide, by decide, by decide, by decide⟩
  · intro s mem hget hmem
    unfold check_memres
    rw [hget]
    dsimp only
    rw [hmem]
    dsimp only
    by_cases hlo : mem < 256 ∨ mem > 2048
    · rw [if_pos hlo, if_neg (by rintro ⟨h1, h2, -⟩; omega)]
    · rw [if_neg hlo]
      push_neg at hlo
      by_cases hh : memres_height env.hdmi2_out (memres_height env.hdmi1_out 0) > 1200
      · rw [if_pos hh, if_pos ⟨hlo.1, hlo.2, hh⟩]
      · rw [if_neg hh, if_neg (by rintro ⟨-, -, h⟩; exact hh h)]
  · intro hget
    unfold check_memres
    rw [hget]
  · intro s hget hmem
    unfold check_memres
    rw [hget]
    dsimp only
    rw [hmem]

/-- C8 witness: the no-data case at a concrete environment, and the
general characterization applied at the (2048, 1201) environment. -/
theorem c8_memres_witness :
    check_memres (brownoutEnv []) = []
    ∧ check_memres (memEnv "2048" "1920x1201") =
        (if 256 ≤ (2048 : Int) ∧ (2048 : Int) ≤ 2048 ∧
            1200 < memres_height (memEnv "2048" "1920x1201").hdmi2_out
              (memres_height (memEnv "2048" "1920x1201").hdmi1_out 0)
         then [Note.notify memMsg] else []) := by
  constructor
  · exact (c8_memres (brownoutEnv [])).2.1 rfl
  · exact (c8_memres (memEnv "2048" "1920x1201")).1 "2048" 2048 rfl (by decide)

/-- C9 counterexample: `get_string` does not strip all whitespace from the
first line — on the first line "a b" it returns "a" (the prefix before the
first whitespace), not "ab". -/
theorem c9_get_string_counterexample :
    get_string (some ["a b"]) = some "a"
    ∧ strip_all_ws "a b" = "ab"
    ∧ get_string (some ["a b"]) ≠ some (strip_all_ws "a b") := by
  refine ⟨by decide, by decide, by decide⟩

/-- C9 (amended): `get_string` captures only the first line of output
(later lines never matter), truncates it at its first whitespace character
— which equals whitespace-stripping for the single-token outputs the
probes produce — returns no value exactly when the pipeline failed to
launch or produced no output, and a downstream parse failure of the
returned string yields "no finding" rather than an error. -/
theorem c9_get_string (out : Option (List String)) :
    (get_string out = none ↔ (out = none ∨ out = some []))
    ∧ (∀ l r1 r2, get_string (some (l :: r1)) = get_string (some (l :: r2)))
    ∧ (∀ l rest, get_string (some (l :: rest)) =
        some (String.mk (l.toList.takeWhile (fun c => !(isSpaceC c)))))
    ∧ (∀ env : Env, ∀ s, get_string env.total_mem_out = some s → sscanf_d s = none →
        check_memres env = []) := by
  refine ⟨?_, fun l r1 r2 => rfl, fun l rest => rfl, ?_⟩
  · constructor
    · intro h
      rcases out with _ | (_ | ⟨l, rest⟩)
      · exact Or.inl rfl
      · exact Or.inr rfl
      · exact absurd h (by simp [get_string])
    · rintro (h | h) <;> rw [h] <;> rfl
  · intro env s hget hmem
    unfold check_memres
    rw [hget]
    dsimp only
    rw [hmem]

/-- C9 witness: the characterization applied at concrete outputs. -/
theorem c9_get_string_witness :
    get_string (some []) = none
    ∧ get_string (some ["a b", "zzz"]) = get_string (some ["a b"])
    ∧ check_memres (memEnv "junk" "1920x1201") = [] := by
  refine ⟨(c9_get_string (some [])).1.mpr (Or.inr rfl), (c9_get_string none).2.1 "a b" ["zzz"] [], ?_⟩
  exact (c9_get_string none).2.2.2 (memEnv "junk" "1920x1201") "junk" rfl (by decide)
